import Mathlib

/-!
Shallow embedding of src/template001.py, a single-file OpenAI tool-calling
template, used to settle the claims of the design specification against the
code.  Python values exchanged as JSON are modelled by the `Json` inductive;
Python exceptions by `PyError`; the two boundary calls of the OpenAI client
(`responses.create`, `responses.parse`) and the HTTP layer of `requests.get`
by function-valued oracles supplied as parameters.
-/

namespace Template001

/-- JSON values, as produced by Python json.loads. -/
inductive Json where
  | null
  | bool (b : Bool)
  | num (n : Int)
  | str (s : String)
  | arr (elems : List Json)
  | obj (fields : List (String × Json))

/-- Python exceptions that the script can raise, by site. -/
inductive PyError where
  | jsonDecodeError
  | keyError (key : String)
  | typeError (msg : String)
  | indexError (idx : Nat)
  | attributeError (attr : String)
  | apiError (msg : String)
deriving Repr, DecidableEq

/-- Escape of one character inside a JSON string literal (json.dumps). -/
def escapeChar (c : Char) : String :=
  if c = '"' then "\\\"" else if c = '\\' then "\\\\" else String.singleton c

/-- Escape of a whole string inside a JSON string literal (json.dumps). -/
def escape (s : String) : String := String.join (s.data.map escapeChar)

mutual

/-- Serialization of a JSON value to text, as Python json.dumps with its
default separators. -/
def Json.dumps : Json → String
  | .null => "null"
  | .bool b => cond b "true" "false"
  | .num n => toString n
  | .str s => "\"" ++ escape s ++ "\""
  | .arr xs => "[" ++ Json.dumpsList xs ++ "]"
  | .obj fs => "\x7b" ++ Json.dumpsFields fs ++ "\x7d"

/-- Comma-separated serialization of the elements of a JSON array. -/
def Json.dumpsList : List Json → String
  | [] => ""
  | [x] => Json.dumps x
  | x :: y :: xs => Json.dumps x ++ ", " ++ Json.dumpsList (y :: xs)

/-- Comma-separated serialization of the fields of a JSON object. -/
def Json.dumpsFields : List (String × Json) → String
  | [] => ""
  | [(k, v)] => "\"" ++ escape k ++ "\": " ++ Json.dumps v
  | (k, v) :: f :: fs =>
      "\"" ++ escape k ++ "\": " ++ Json.dumps v ++ ", " ++ Json.dumpsFields (f :: fs)

end

/-- Python subscripting `value[key]` on a decoded JSON value: a KeyError when
the key is absent from an object, a TypeError when the value is not an object
(a Python dict), exactly as the interpreter raises them. -/
def Json.subscript : Json → String → Except PyError Json
  | .obj fields, k =>
      match fields.lookup k with
      | some v => .ok v
      | none => .error (.keyError k)
  | _, _ => .error (.typeError "value is not subscriptable by string keys")

/-- Python str() of a decoded JSON value, as used by f-string interpolation in
fetch_fruits.  Scalar cases follow Python exactly; for containers (which the
script never interpolates) the JSON serialization is used. -/
def Json.pyStr : Json → String
  | .str s => s
  | .num n => toString n
  | .bool b => cond b "True" "False"
  | .null => "None"
  | j => Json.dumps j

/-- One HTTP GET request as issued by requests.get(url, params). -/
structure HttpRequest where
  url : String
  params : List (String × Json)

/-- Embedding of fetch_fruits (src/template001.py, lines 93-113).

The `http` oracle stands for the composition of requests.get with .json():
given the request, it yields the response body decoded as JSON.  The
`arguments` parameter is the outcome of json.loads on the tool call
arguments string — the library call is the boundary, so its result is the
input: `none` is a string that is not valid JSON, on which json.loads raises
JSONDecodeError.  On success the returned pair carries the one GET request
the function issued together with the decoded response body it returns. -/
def fetch_fruits (http : HttpRequest → Json) (arguments : Option Json) :
    Except PyError (HttpRequest × Json) :=
  match arguments with
  | none => .error .jsonDecodeError
  | some args_as_json =>
    match args_as_json.subscript "min_value" with
    | .error e => .error e
    | .ok min_v =>
      match args_as_json.subscript "max_value" with
      | .error e => .error e
      | .ok max_v =>
        match args_as_json.subscript "nutrition_name" with
        | .error e => .error e
        | .ok nutrition_name =>
          let params := [("min", min_v), ("max", max_v)]
          let url_complete := "https://www.fruityvice.com/api/fruit" ++ "/" ++ nutrition_name.pyStr
          let req : HttpRequest := ⟨url_complete, params⟩
          .ok (req, http req)

/-- The pydantic model ExampleModel (src/template001.py, lines 48-52); the
Python float field is modelled as a rational. -/
structure ExampleModel where
  field_1 : Int
  field_2 : String
  field_3 : Int × Int
  field_4 : Rat
deriving Repr, DecidableEq

/-- The pydantic model ExampleModels (src/template001.py, lines 54-55). -/
structure ExampleModels where
  example_models : List ExampleModel
deriving Repr, DecidableEq

/-- One item of the output list of a response.  A functionCall is a requested tool
invocation carrying its correlation identifier, tool name and raw arguments
(here in decoded form, see fetch_fruits); a message is final answer text,
which has no call_id attribute. -/
inductive OutputItem where
  | functionCall (call_id : String) (name : String) (arguments : Option Json)
  | message (content : String)

/-- One element of the inputs list of the script: a role-tagged seed message, an
output item appended verbatim from a response, or a function_call_output
record with its call_id and its text payload. -/
inductive Entry where
  | message (role : String) (content : String)
  | outputItem (item : OutputItem)
  | functionCallOutput (call_id : String) (output : String)

/-- The seed `inputs` list (src/template001.py, lines 117-126). -/
def seedInputs : List Entry :=
  [ .message "developer" "I am operating a system that is designed to provide responses to users within a defined scope.",
    .message "user" "This should be a request to the system that is within the scope of its design." ]

/-- The OpenAI client boundary: responses.create and responses.parse, each a
function of the inputs list sent, returning either a value or the exception
the library raises (quota, network, schema mismatch, ...). -/
structure CompletionClient where
  create : List Entry → Except PyError (List OutputItem)
  parse : List Entry → Except PyError ExampleModels

/-- What one execution of the orchestration section of the script did: how many
times each client operation was called, the inputs list at the moment
responses.parse was called (none when execution crashed before reaching it),
and the final outcome — the parsed output, or the uncaught exception. -/
structure RunTrace where
  createCalls : Nat
  parseCalls : Nat
  parseInput : Option (List Entry)
  result : Except PyError ExampleModels

/-- The text payload the script appends as every function_call_output:
json.dumps applied to the fixed placeholder string (line 151). -/
def placeholderOutput : String :=
  Json.dumps (.str "output of the method that executed the function call")

/-- Embedding of the orchestration section (src/template001.py, lines
129-164), statement by statement:
response_1 = client.responses.create(...) on the seed inputs; then
inputs.append(response_1.output[0]) — an IndexError if the output list is
empty; then a function_call_output record built from
response_1.output[0].call_id — an AttributeError if that first item is a
message, which has no call_id — and json.dumps of the placeholder string;
then response_2 = client.responses.parse(...) on the extended inputs.
Exceptions raised by either client call propagate: the script has no
exception handler. -/
def run (client : CompletionClient) : RunTrace :=
  match client.create seedInputs with
  | .error e => ⟨1, 0, none, .error e⟩
  | .ok output =>
    match output with
    | [] => ⟨1, 0, none, .error (.indexError 0)⟩
    | item :: _ =>
      match item with
      | .message _ => ⟨1, 0, none, .error (.attributeError "call_id")⟩
      | .functionCall cid _ _ =>
        let inputs := seedInputs ++
          [Entry.outputItem item, Entry.functionCallOutput cid placeholderOutput]
        match client.parse inputs with
        | .error e => ⟨1, 1, some inputs, .error e⟩
        | .ok parsed => ⟨1, 1, some inputs, .ok parsed⟩

/-! Concrete clients and payloads used to evaluate the embedding. -/

/-- Arguments of a well-formed get_fruits call: sugar between 0 and 5. -/
def sugarArgs : Json :=
  .obj [("nutrition_name", .str "sugar"), ("min_value", .num 0), ("max_value", .num 5)]

/-- A get_fruits tool call with the sugar arguments. -/
def sugarCall : OutputItem := .functionCall "call_1" "get_fruits" (some sugarArgs)

/-- A second get_fruits tool call, for protein, with its own call_id. -/
def proteinCall : OutputItem :=
  .functionCall "call_2" "get_fruits"
    (some (.obj [("nutrition_name", .str "protein"), ("min_value", .num 1), ("max_value", .num 3)]))

/-- A client that requests the sugar tool call on every completion turn, no
matter how long the transcript grows, and parses successfully. -/
def alwaysToolClient : CompletionClient where
  create := fun _ => .ok [sugarCall]
  parse := fun _ => .ok ⟨[]⟩

/-- A client encoding one tool-call turn followed by one final-answer turn:
on the two-entry seed transcript it requests the sugar tool call; on any
longer transcript it would return a final message. -/
def oneToolThenFinalClient : CompletionClient where
  create := fun inputs =>
    if inputs.length ≤ 2 then .ok [sugarCall] else .ok [.message "final answer"]
  parse := fun _ => .ok ⟨[]⟩

/-- A client whose single completion turn returns a batch of two tool calls. -/
def twoToolCallsClient : CompletionClient where
  create := fun _ => .ok [sugarCall, proteinCall]
  parse := fun _ => .ok ⟨[]⟩

/-- A client that requests a tool call naming a tool that is registered
nowhere in the script. -/
def unknownToolClient : CompletionClient where
  create := fun _ => .ok [.functionCall "call_9" "does_not_exist" (some (.obj []))]
  parse := fun _ => .ok ⟨[]⟩

/-- A client whose completion call raises, as the OpenAI library does on
quota or network failure. -/
def failingCreateClient : CompletionClient where
  create := fun _ => .error (.apiError "rate limit exceeded")
  parse := fun _ => .ok ⟨[]⟩

/-- A client whose completion turn returns a final-answer message and no
tool call at all. -/
def finalAnswerClient : CompletionClient where
  create := fun _ => .ok [.message "here is your answer"]
  parse := fun _ => .ok ⟨[]⟩

/-- A response body the fruit API could return for sugar between 0 and 5:
structured data, not text. -/
def fruitJson : Json :=
  .arr [.obj [("name", .str "Lime"), ("sugar", .num 2)],
        .obj [("name", .str "Lemon"), ("sugar", .num 3)]]

/-- An HTTP oracle that answers every GET request with fruitJson. -/
def fruityHttp : HttpRequest → Json := fun _ => fruitJson

/-- A client whose completion turn requests the sugar tool call and whose
parse call raises, as the library does when the output does not match the
declared schema. -/
def failingParseClient : CompletionClient where
  create := fun _ => .ok [sugarCall]
  parse := fun _ => .error (.apiError "output did not conform to ExampleModels")

/-- Arguments whose nutrition_name lies outside the enumeration declared in
the tool schema (sugar, protein, fat, carbohydrates, calories). -/
def bogusArgs : Json :=
  .obj [("nutrition_name", .str "bogus"), ("min_value", .num 0), ("max_value", .num 5)]

/-! Shape lemma shared by the proofs below. -/

/-- After a completion turn whose first output item is a function call, the
script always reaches the parse call on the transcript extended with that
item and the placeholder function_call_output, and the trace is determined
by the parse outcome. -/
theorem run_after_toolcall (client : CompletionClient) (cid name : String)
    (args : Option Json) (rest : List OutputItem)
    (h : client.create seedInputs = .ok (.functionCall cid name args :: rest)) :
    run client =
      match client.parse (seedInputs ++
        [Entry.outputItem (.functionCall cid name args),
         Entry.functionCallOutput cid placeholderOutput]) with
      | .error e => ⟨1, 1, some (seedInputs ++
          [Entry.outputItem (.functionCall cid name args),
           Entry.functionCallOutput cid placeholderOutput]), .error e⟩
      | .ok parsed => ⟨1, 1, some (seedInputs ++
          [Entry.outputItem (.functionCall cid name args),
           Entry.functionCallOutput cid placeholderOutput]), .ok parsed⟩ := by
  unfold run
  rw [h]

/-! Claim C1 — iteration cap. -/

/-- C1 counterexample: against a completion client that requests a tool call
on every turn, the orchestration does not transition to a failure carrying
an iteration-limit error after max_turns turns — it succeeds after a single
completion call, and its result is not an error of any kind; no iteration
cap exists in the code. -/
theorem C1_counterexample :
    (run alwaysToolClient).result = .ok ⟨[]⟩ ∧
    (run alwaysToolClient).createCalls = 1 ∧
    ∀ e, (run alwaysToolClient).result ≠ Except.error e :=
  ⟨rfl, rfl, fun _ h => Except.noConfusion h⟩

/-- C1 amended: the orchestration terminates for every completion client
because the code is straight-line — it issues exactly one completion call
and at most one parse call; there is no configurable max_turns cap and no
iteration-limit failure. -/
theorem C1_amended_theorem (client : CompletionClient) :
    (run client).createCalls = 1 ∧ (run client).parseCalls ≤ 1 := by
  cases h : client.create seedInputs with
  | error e => exact ⟨by simp [run, h], by simp [run, h]⟩
  | ok output =>
    cases output with
    | nil => exact ⟨by simp [run, h], by simp [run, h]⟩
    | cons item rest =>
      cases item with
      | message c => exact ⟨by simp [run, h], by simp [run, h]⟩
      | functionCall cid nm args =>
        rw [run_after_toolcall client cid nm args rest h]
        cases hp : client.parse (seedInputs ++
            [Entry.outputItem (.functionCall cid nm args),
             Entry.functionCallOutput cid placeholderOutput]) with
        | error e => exact ⟨rfl, Nat.le_refl 1⟩
        | ok p => exact ⟨rfl, Nat.le_refl 1⟩

/-! Claim C2 — N+1 completion calls. -/

/-- C2 counterexample: for the event sequence with N = 1 tool-call turn
followed by one final-answer turn, the orchestrator makes one completion
call, not N + 1 = 2. -/
theorem C2_counterexample :
    (run oneToolThenFinalClient).createCalls = 1 ∧
    (run oneToolThenFinalClient).createCalls ≠ 1 + 1 :=
  ⟨rfl, by decide⟩

/-- C2 amended: the orchestrator makes exactly one completion call for every
client, and exactly one parse call precisely when that single completion
returns a function call as its first output item. -/
theorem C2_amended_theorem (client : CompletionClient) :
    (run client).createCalls = 1 ∧
    ((run client).parseCalls = 1 ↔ ∃ cid name args rest,
        client.create seedInputs = Except.ok (OutputItem.functionCall cid name args :: rest)) := by
  cases h : client.create seedInputs with
  | error e => exact ⟨by simp [run, h], by simp [run, h]⟩
  | ok output =>
    cases output with
    | nil => exact ⟨by simp [run, h], by simp [run, h]⟩
    | cons item rest =>
      cases item with
      | message c => exact ⟨by simp [run, h], by simp [run, h]⟩
      | functionCall cid nm args =>
        rw [run_after_toolcall client cid nm args rest h]
        cases hp : client.parse (seedInputs ++
            [Entry.outputItem (.functionCall cid nm args),
             Entry.functionCallOutput cid placeholderOutput]) with
        | error e => exact ⟨rfl, iff_of_true rfl ⟨cid, nm, args, rest, rfl⟩⟩
        | ok p => exact ⟨rfl, iff_of_true rfl ⟨cid, nm, args, rest, rfl⟩⟩

/-! Claim C3 — whole tool-call batch processed. -/

/-- C3: when a completion turn returns a batch of two tool calls, the
transcript handed to the parse call contains the request and placeholder
result for the first call only; no entry for the second call — neither its
request nor a result under its call_id, whatever the payload — is ever
appended, contradicting the in-source comment that every function call in
response_1.output should be executed and appended. -/
theorem C3_bug_theorem :
    (run twoToolCallsClient).parseInput =
      some (seedInputs ++
        [Entry.outputItem sugarCall, Entry.functionCallOutput "call_1" placeholderOutput]) ∧
    Entry.outputItem proteinCall ∉
      (seedInputs ++
        [Entry.outputItem sugarCall, Entry.functionCallOutput "call_1" placeholderOutput]) ∧
    ∀ s, Entry.functionCallOutput "call_2" s ∉
      (seedInputs ++
        [Entry.outputItem sugarCall, Entry.functionCallOutput "call_1" placeholderOutput]) :=
  ⟨rfl,
   by simp [seedInputs, sugarCall, proteinCall, placeholderOutput],
   fun s => by simp [seedInputs, sugarCall, placeholderOutput]⟩

/-! Claim C4 — argument validation before the handler. -/

/-- C4 counterexample: with arguments whose nutrition_name is "bogus", a
value outside the enumeration declared in the tool schema, the invocation
does not fail with an invalid-arguments error and the handler is not kept
from running: fetch_fruits proceeds to issue the GET request for the bogus
URL and returns the response. -/
theorem C4_counterexample :
    fetch_fruits fruityHttp (some bogusArgs) =
      .ok (⟨"https://www.fruityvice.com/api/fruit" ++ "/" ++ "bogus",
            [("min", .num 0), ("max", .num 5)]⟩, fruitJson) := rfl

/-- C4 amended: no argument validation exists in the code.  For every
argument object that carries the three declared keys, fetch_fruits runs the
handler body and issues the request — whatever the nutrition_name value
(enumerated or not, or not even a string) and whatever undeclared extra
fields are present; schema enforcement is only declared to the completion
service in the tool description, never checked locally. -/
theorem C4_amended_theorem (http : HttpRequest → Json) (nv mv xv : Json)
    (extras : List (String × Json)) :
    fetch_fruits http
      (some (.obj ([("nutrition_name", nv), ("min_value", mv), ("max_value", xv)] ++ extras))) =
      .ok (⟨"https://www.fruityvice.com/api/fruit" ++ "/" ++ nv.pyStr, [("min", mv), ("max", xv)]⟩,
        http ⟨"https://www.fruityvice.com/api/fruit" ++ "/" ++ nv.pyStr, [("min", mv), ("max", xv)]⟩) := by
  simp [fetch_fruits, Json.subscript, List.lookup]

/-! Claim C5 — handler result is what reaches the transcript. -/

/-- C5: for a completion turn requesting get_fruits with well-formed sugar
arguments, the handler fetch_fruits would return the structured fruit list,
yet the text appended to the transcript as the tool result is json.dumps of
a fixed placeholder string — the handler is never called by the
orchestration section and its result is not what is serialized, even though
the in-source comments say the output of the executed method must be sent
back as the function-call result. -/
theorem C5_bug_theorem :
    (run alwaysToolClient).parseInput =
      some (seedInputs ++
        [Entry.outputItem sugarCall, Entry.functionCallOutput "call_1" placeholderOutput]) ∧
    fetch_fruits fruityHttp (some sugarArgs) =
      .ok (⟨"https://www.fruityvice.com/api/fruit" ++ "/" ++ "sugar",
            [("min", .num 0), ("max", .num 5)]⟩, fruitJson) ∧
    placeholderOutput ≠ Json.dumps fruitJson :=
  ⟨rfl, rfl, by decide⟩

/-! Claim C6 — correlation identifier and text serialization. -/

/-- C6: whenever the completion turn returns a function call, the
function_call_output entry appended to the transcript carries exactly the
call_id of the function-call entry it answers, and its payload is text
produced by JSON serialization (json.dumps applied to the payload string),
even though the underlying tool data would be structured. -/
theorem C6_theorem (client : CompletionClient) (cid name : String)
    (args : Option Json) (rest : List OutputItem)
    (h : client.create seedInputs = .ok (.functionCall cid name args :: rest)) :
    (run client).parseInput =
      some (seedInputs ++
        [Entry.outputItem (.functionCall cid name args),
         Entry.functionCallOutput cid
           (Json.dumps (.str "output of the method that executed the function call"))]) := by
  rw [run_after_toolcall client cid name args rest h]
  cases hp : client.parse (seedInputs ++
      [Entry.outputItem (.functionCall cid name args),
       Entry.functionCallOutput cid placeholderOutput]) with
  | error e => rfl
  | ok p => rfl

/-- C6 witness: the theorem applied to the concrete sugar client. -/
theorem C6_witness :
    (run alwaysToolClient).parseInput =
      some (seedInputs ++
        [Entry.outputItem (.functionCall "call_1" "get_fruits" (some sugarArgs)),
         Entry.functionCallOutput "call_1"
           (Json.dumps (.str "output of the method that executed the function call"))]) :=
  C6_theorem alwaysToolClient "call_1" "get_fruits" (some sugarArgs) [] rfl

/-! Claim C7 — failure recovery inside the loop. -/

/-- C7 counterexample: for a tool call naming a tool registered nowhere, the
run still succeeds and proceeds to the parse call, and the text appended as
the tool result is the fixed placeholder string — identical to the text
appended for any other call — not a serialization of an unknown-tool
failure: no failure is detected, raised, or serialized, because no tool is
ever executed inside the orchestration section. -/
theorem C7_counterexample :
    (run unknownToolClient).result = .ok ⟨[]⟩ ∧
    (run unknownToolClient).parseCalls = 1 ∧
    (run unknownToolClient).parseInput =
      some (seedInputs ++
        [Entry.outputItem (.functionCall "call_9" "does_not_exist" (some (.obj []))),
         Entry.functionCallOutput "call_9" placeholderOutput]) ∧
    placeholderOutput = "\"output of the method that executed the function call\"" :=
  ⟨rfl, rfl, rfl, rfl⟩

/-- C7 amended: after a tool-call turn the loop always proceeds to the parse
call with the fixed placeholder as the result text, for every requested tool
name, known or unknown; any error escaping the run from that point on comes
from the parse call, never from tool execution — because tools are never
executed there, no tool failure can be either serialized or raised. -/
theorem C7_amended_theorem (client : CompletionClient) (cid name : String)
    (args : Option Json) (rest : List OutputItem)
    (h : client.create seedInputs = .ok (.functionCall cid name args :: rest)) :
    (run client).parseCalls = 1 ∧
    (run client).parseInput =
      some (seedInputs ++
        [Entry.outputItem (.functionCall cid name args),
         Entry.functionCallOutput cid placeholderOutput]) ∧
    ∀ e, (run client).result = Except.error e →
      client.parse (seedInputs ++
        [Entry.outputItem (.functionCall cid name args),
         Entry.functionCallOutput cid placeholderOutput]) = Except.error e := by
  rw [run_after_toolcall client cid name args rest h]
  cases hp : client.parse (seedInputs ++
      [Entry.outputItem (.functionCall cid name args),
       Entry.functionCallOutput cid placeholderOutput]) with
  | error e => exact ⟨rfl, rfl, fun e' he' => he'⟩
  | ok p => exact ⟨rfl, rfl, fun e' he' => Except.noConfusion he'⟩

/-- C7 witness: the amended theorem applied to the unknown-tool client. -/
theorem C7_witness :
    (run unknownToolClient).parseCalls = 1 ∧
    (run unknownToolClient).parseInput =
      some (seedInputs ++
        [Entry.outputItem (.functionCall "call_9" "does_not_exist" (some (.obj []))),
         Entry.functionCallOutput "call_9" placeholderOutput]) ∧
    ∀ e, (run unknownToolClient).result = Except.error e →
      unknownToolClient.parse (seedInputs ++
        [Entry.outputItem (.functionCall "call_9" "does_not_exist" (some (.obj []))),
         Entry.functionCallOutput "call_9" placeholderOutput]) = Except.error e :=
  C7_amended_theorem unknownToolClient "call_9" "does_not_exist" (some (.obj [])) [] rfl

/-! Claim C8 — failure surface of a failed session. -/

/-- C8 counterexample: when the completion call raises, the run ends with
that exception propagating to the caller unchanged; the trace records no
parse input (no partial transcript is surfaced to the caller) and there is
no discriminated failure value carrying kind, message, and transcript —
only the bare exception. -/
theorem C8_counterexample :
    run failingCreateClient =
      ⟨1, 0, none, .error (.apiError "rate limit exceeded")⟩ := rfl

/-- C8 amended: a failed session propagates the underlying exception to the
caller unhandled — the script has no exception handler and builds no
structured failure result: a failing completion call ends the run at once
with that exception and nothing else, and a failing parse call surfaces its
exception as the result. -/
theorem C8_amended_theorem (client : CompletionClient) (e : PyError) :
    (client.create seedInputs = .error e → run client = ⟨1, 0, none, .error e⟩) ∧
    (∀ cid name args rest,
      client.create seedInputs = .ok (.functionCall cid name args :: rest) →
      client.parse (seedInputs ++
        [Entry.outputItem (.functionCall cid name args),
         Entry.functionCallOutput cid placeholderOutput]) = .error e →
      (run client).result = Except.error e) := by
  constructor
  · intro h
    unfold run
    rw [h]
  · intro cid name args rest h hp
    rw [run_after_toolcall client cid name args rest h, hp]

/-- C8 witness: the amended theorem applied to the failing-create client and
to the failing-parse client. -/
theorem C8_witness :
    run failingCreateClient = ⟨1, 0, none, .error (.apiError "rate limit exceeded")⟩ ∧
    (run failingParseClient).result =
      Except.error (.apiError "output did not conform to ExampleModels") :=
  ⟨(C8_amended_theorem failingCreateClient (.apiError "rate limit exceeded")).1 rfl,
   (C8_amended_theorem failingParseClient
      (.apiError "output did not conform to ExampleModels")).2
     "call_1" "get_fruits" (some sugarArgs) [] rfl rfl⟩

/-! Claim C9 — the request fetch_fruits issues. -/

/-- C9: for every argument object carrying min_value, max_value, and a
string nutrition_name, fetch_fruits issues exactly one GET request, to the
fruityvice fruit URL extended with "/" and the nutrition name, with query
parameters "min" and "max" bound to the min_value and max_value argument
values, and returns the response body decoded as JSON. -/
theorem C9_theorem (http : HttpRequest → Json) (o mv xv : Json) (nn : String)
    (h1 : o.subscript "min_value" = .ok mv)
    (h2 : o.subscript "max_value" = .ok xv)
    (h3 : o.subscript "nutrition_name" = .ok (.str nn)) :
    fetch_fruits http (some o) =
      .ok (⟨"https://www.fruityvice.com/api/fruit" ++ "/" ++ nn, [("min", mv), ("max", xv)]⟩,
        http ⟨"https://www.fruityvice.com/api/fruit" ++ "/" ++ nn, [("min", mv), ("max", xv)]⟩) := by
  simp [fetch_fruits, h1, h2, h3, Json.pyStr]

/-- C9 witness: the theorem applied to the concrete sugar arguments. -/
theorem C9_witness :
    fetch_fruits fruityHttp (some sugarArgs) =
      .ok (⟨"https://www.fruityvice.com/api/fruit" ++ "/" ++ "sugar",
            [("min", .num 0), ("max", .num 5)]⟩,
        fruityHttp ⟨"https://www.fruityvice.com/api/fruit" ++ "/" ++ "sugar",
            [("min", .num 0), ("max", .num 5)]⟩) :=
  C9_theorem fruityHttp sugarArgs (.num 0) (.num 5) "sugar" rfl rfl rfl

/-! Claim C10 — fetch_fruits validates nothing. -/

/-- C10: fetch_fruits performs no input validation.  On an arguments string
that is not valid JSON it raises the JSON decode error, and on decoded
arguments for which any of the three subscript accesses min_value,
max_value, nutrition_name raises (a KeyError for a missing key on an object,
a TypeError on a non-object), it raises an uncaught exception instead of
returning a value or a structured error. -/
theorem C10_theorem (http : HttpRequest → Json) (j : Json)
    (h : (∃ e, j.subscript "min_value" = .error e) ∨
         (∃ e, j.subscript "max_value" = .error e) ∨
         (∃ e, j.subscript "nutrition_name" = .error e)) :
    (∃ e, fetch_fruits http (some j) = .error e) ∧
    fetch_fruits http none = .error .jsonDecodeError := by
  refine ⟨?_, rfl⟩
  cases h1 : j.subscript "min_value" with
  | error e => exact ⟨e, by simp [fetch_fruits, h1]⟩
  | ok mv =>
    cases h2 : j.subscript "max_value" with
    | error e => exact ⟨e, by simp [fetch_fruits, h1, h2]⟩
    | ok xv =>
      cases h3 : j.subscript "nutrition_name" with
      | error e => exact ⟨e, by simp [fetch_fruits, h1, h2, h3]⟩
      | ok nv =>
        rcases h with ⟨e, he⟩ | ⟨e, he⟩ | ⟨e, he⟩ <;>
          simp [h1, h2, h3] at he

/-- C10 witness: the theorem applied to an argument object that carries only
nutrition_name and misses min_value and max_value. -/
theorem C10_witness :
    (∃ e, fetch_fruits fruityHttp
        (some (.obj [("nutrition_name", .str "sugar")])) = .error e) ∧
    fetch_fruits fruityHttp none = .error .jsonDecodeError :=
  C10_theorem fruityHttp (.obj [("nutrition_name", .str "sugar")])
    (Or.inl ⟨.keyError "min_value", rfl⟩)

end Template001
